import Mathlib

/-!
Verification of the gateway's routing, authentication, bridging and
error-mapping behavior, shallowly embedded from the source
(`src/index.js`, the full-featured gateway variant).

Paths and header values are modelled as lists of characters (`Str`), so
that the JavaScript string operations used by the source
(`startsWith`, `split`, slicing) become structurally recursive list
functions amenable to both evaluation and induction.
-/

namespace Gateway

/-- JavaScript strings, modelled as character lists. -/
abbrev Str := List Char

/-- Convenience: a Lean string literal as a character list. -/
def strLit (s : String) : Str := s.toList

/-- `pat.isPre s` models JavaScript `s.startsWith(pat)`. -/
def isPre : Str → Str → Bool
  | [], _ => true
  | _ :: _, [] => false
  | a :: as, b :: bs => a == b && isPre as bs

/-- JavaScript `s.split(" ")`: splits on every single space character. -/
def splitOnSp : Str → List Str
  | [] => [[]]
  | c :: cs =>
    let r := splitOnSp cs
    if c = ' ' then [] :: r
    else
      match r with
      | [] => [[c]]
      | w :: ws => (c :: w) :: ws

/-- Claims decoded from a verified token (`jwt.verify`'s result),
as a field map. -/
abbrev Claims := List (String × String)

/-- An inbound request as the gateway sees it: method, `originalUrl`
path, the `Authorization` header if present, the parsed JSON body as a
field map, and the `req.user` slot populated by the JWT middleware. -/
structure Request where
  method : String
  path : Str
  authorization : Option Str
  body : List (String × String)
  user : Option Claims
deriving DecidableEq

/-- Response bodies the gateway can produce. -/
inductive Body
  | text (s : String)
  | jsonMessage (message : String)
  | jsonMessageError (message error : String)
  | jsonRpc (fields : List (String × String))
  | upstreamBody
  | defaultNotFound
deriving DecidableEq

/-- An HTTP response: status code and body. -/
structure HttpResponse where
  status : Nat
  body : Body
deriving DecidableEq

/-- Terminal outcome of a request: either exactly one response is sent,
or the error occurred after response headers were already streamed and
the connection ends with the partial stream. -/
inductive Outcome
  | sent (resp : HttpResponse)
  | streamClosed
deriving DecidableEq

/-- Result of the `verifyJWT` middleware: either pass control to the
next handler (with the possibly-updated request), or short-circuit
with a response. -/
inductive VerifyResult
  | proceed (req : Request)
  | respond (status : Nat) (message : String)
deriving DecidableEq

/-- The token extracted from an `Authorization` header:
`authHeader.split(" ")[1]` (empty when absent, as `jwt.verify` of
`undefined` fails anyway). -/
def tokenOf (h : Str) : Str := (splitOnSp h).getD 1 []

/-- The `verifyJWT` middleware (src/index.js lines 77-96), parameterized
by the verification oracle `verify` standing for
`jwt.verify(token, process.env.JWT_SECRET)`: `some claims` on success,
`none` when verification throws (bad signature, expiry, missing secret). -/
def verifyJWT (verify : Str → Option Claims) (req : Request) : VerifyResult :=
  if isPre (strLit "/auth") req.path then
    .proceed req
  else
    match req.authorization with
    | none => .respond 401 "No token provided"
    | some h =>
      if isPre (strLit "Bearer ") h then
        match verify (tokenOf h) with
        | some decoded => .proceed { req with user := some decoded }
        | none => .respond 403 "Invalid or expired token"
      else
        .respond 401 "No token provided"

/-- Models `jwt.verify`'s dependence on the signing secret: with the
secret absent from the environment, `jwt.verify(token, undefined)`
always throws regardless of the token, hence `none`. -/
def mkVerify (secret : Option String) (check : String → Str → Option Claims) :
    Str → Option Claims :=
  fun t =>
    match secret with
    | none => none
    | some s => check s t

/-- A route's path rewrite, one constructor per form appearing in the
source: re-attach a literal in front of the stripped path
(`path => lit + (path or "")`), strip a leading literal
(`pathRewrite: \x7b "^lit": "" \x7d`), or leave the path unchanged
(no `pathRewrite` option). -/
inductive Rewrite
  | reattach (lit : Str)
  | stripRule (lit : Str)
  | keep
deriving DecidableEq

/-- Apply a rewrite to the (already mount-stripped) request path, as
http-proxy-middleware does before forwarding. -/
def applyRewrite : Rewrite → Str → Str
  | .reattach a, p => a ++ p
  | .stripRule a, p => if isPre a p then p.drop a.length else p
  | .keep, p => p

/-- One `app.use(mount, createProxyMiddleware(...))` rule: the mount
path, the environment variable holding the upstream base URL, the
message used by the route's `onError` 502 body, the path rewrite, and
the configured timeout in milliseconds. -/
structure RouteRule where
  mount : Str
  targetEnv : String
  errMessage : String
  rewrite : Rewrite
  timeoutMillis : Nat
deriving DecidableEq

/-- The `/auth` proxy rule (source lines 100-139). -/
def authRoute : RouteRule :=
  { mount := strLit "/auth", targetEnv := "AUTH_SERVICE_URL",
    errMessage := "Gateway failed to reach auth service",
    rewrite := .reattach (strLit "/auth"), timeoutMillis := 30000 }

/-- The `/stakeholders` proxy rule (source lines 215-251): no
`pathRewrite` option, so the stripped path is forwarded unchanged. -/
def stakeholdersRoute : RouteRule :=
  { mount := strLit "/stakeholders", targetEnv := "STAKEHOLDERS_SERVICE_URL",
    errMessage := "Gateway failed to reach stakeholders service",
    rewrite := .keep, timeoutMillis := 30000 }

/-- The `/api/blog` proxy rule (source lines 253-292). -/
def blogRoute : RouteRule :=
  { mount := strLit "/api/blog", targetEnv := "BLOG_SERVICE_URL",
    errMessage := "Gateway failed to reach blog service",
    rewrite := .reattach (strLit "/api/blog"), timeoutMillis := 30000 }

/-- The `/api/tour` proxy rule (source lines 293-333). -/
def tourRoute : RouteRule :=
  { mount := strLit "/api/tour", targetEnv := "TOUR_SERVICE_URL",
    errMessage := "Gateway failed to reach tour service",
    rewrite := .reattach (strLit "/api/tour"), timeoutMillis := 10000 }

/-- The `/api/tour-execution` proxy rule (source lines 335-358). -/
def tourExecutionRoute : RouteRule :=
  { mount := strLit "/api/tour-execution", targetEnv := "TOUR_SERVICE_URL",
    errMessage := "Gateway failed to reach tour service",
    rewrite := .reattach (strLit "/api/tour-execution"), timeoutMillis := 10000 }

/-- The `/api/followers` proxy rule (source lines 360-397):
`pathRewrite: \x7b "^/api/followers": "" \x7d`. -/
def followersRoute : RouteRule :=
  { mount := strLit "/api/followers", targetEnv := "FOLLOWERS_SERVICE_URL",
    errMessage := "Gateway failed to reach followers service",
    rewrite := .stripRule (strLit "/api/followers"), timeoutMillis := 10000 }

/-- The `/api/carts` proxy rule (source lines 399-439). Its target is
the payments service, but its `onError` body message says
"followers" — transcribed verbatim from the source. -/
def cartsRoute : RouteRule :=
  { mount := strLit "/api/carts", targetEnv := "PAYMENTS_SERVICE_URL",
    errMessage := "Gateway failed to reach followers service",
    rewrite := .reattach (strLit "/api/carts"), timeoutMillis := 10000 }

/-- The proxy rules in their registration order in the source. -/
def routeTable : List RouteRule :=
  [authRoute, stakeholdersRoute, blogRoute, tourRoute,
   tourExecutionRoute, followersRoute, cartsRoute]

/-- Express mount matching for `app.use(mount, ...)`: the path matches
when it equals the mount or continues it with a `/` (path-to-regexp
with `end: false`). A path like `/api/tourX` does NOT match the
mount `/api/tour`. -/
def mountMatches (mount p : Str) : Bool :=
  p == mount || isPre (mount ++ ['/']) p

/-- Express strips the matched mount from `req.url` before invoking a
mounted middleware; a fully-consumed path becomes `/`. -/
def stripMount (mount p : Str) : Str :=
  let r := p.drop mount.length
  if r = [] then ['/'] else r

/-- The first proxy rule whose mount matches the path, in registration
order — Express tries `app.use` layers in order. -/
def matchRoute (p : Str) : Option RouteRule :=
  routeTable.find? fun r => mountMatches r.mount p

/-- The path the upstream of a matched rule receives: the rule's
rewrite applied to the mount-stripped path. -/
def forwardedPath (r : RouteRule) (p : Str) : Str :=
  applyRewrite r.rewrite (stripMount r.mount p)

/-- What the upstream of a proxied route does: respond (streamed back
verbatim), or fail (connection failure / timeout / no response) with
an error message, recording whether response headers had already been
sent when the failure surfaced. -/
inductive ProxyResult
  | responded (status : Nat)
  | failed (errMsg : String) (headersSent : Bool)

/-- Dispatch through one proxy rule: stream a successful upstream
response back; on failure run the route's `onError`, which sends the
502 JSON body only when no headers have been sent yet. -/
def proxyOutcome (r : RouteRule) (upstream : String → Str → ProxyResult)
    (p : Str) : Outcome :=
  match upstream r.targetEnv (forwardedPath r p) with
  | .responded s => .sent ⟨s, .upstreamBody⟩
  | .failed m hs =>
    if hs then .streamClosed
    else .sent ⟨502, .jsonMessageError r.errMessage m⟩

/-- gRPC status code `NOT_FOUND`. -/
def grpcNotFound : Nat := 5

/-- Outcome of a unary gRPC call: the callback is invoked with either
a response or an error carrying a status code and message (an
unreachable backend surfaces as status `UNAVAILABLE`, code 14). -/
inductive RpcOutcome
  | ok (resp : List (String × String))
  | rpcError (code : Nat) (message : String)

/-- The three bridged RPC calls, with the fixed field sets the source
destructures from the JSON body (absent fields pass as undefined). -/
inductive RpcCall
  | create (author title description images : Option String)
  | postComment (blogId author text : Option String)
  | createTour (author title description difficulty price tags
      keyPoints durations length : Option String)
deriving DecidableEq

/-- JSON object field lookup on the parsed request body. -/
def jsField (body : List (String × String)) (k : String) : Option String :=
  (body.find? fun kv => kv.fst == k).map fun kv => kv.snd

/-- The shared response mapping of all three bridged handlers: success
becomes `201` echoing the RPC response; an error becomes `404` when its
code is `NOT_FOUND` and `500` otherwise, both carrying the error's
message. -/
def bridgedRespond : RpcOutcome → HttpResponse
  | .ok r => ⟨201, .jsonRpc r⟩
  | .rpcError code msg =>
    ⟨if code == grpcNotFound then 404 else 500, .jsonMessage msg⟩

/-- Exact-path matching for `app.post`/`app.patch`/`app.get` routes
(path-to-regexp with `end: true`: an optional trailing slash is
allowed). -/
def exactMatch (lit p : Str) : Bool :=
  p == lit || p == lit ++ ['/']

/-- True when the request hits one of the three bridged REST-to-RPC
endpoints registered in the source (lines 151, 165, 195). -/
def bridgedHit (method : String) (p : Str) : Bool :=
  (method == "POST" && exactMatch (strLit "/api/blog") p)
  || (method == "PATCH" && exactMatch (strLit "/api/blog/comment") p)
  || (method == "POST" && exactMatch (strLit "/api/tour") p)

/-- The RPC call a bridged request issues, with the body fields each
handler destructures. -/
def bridgedCall (req : Request) : RpcCall :=
  let f := jsField req.body
  if req.method == "POST" && exactMatch (strLit "/api/blog") req.path then
    .create (f "author") (f "title") (f "description") (f "images")
  else if req.method == "PATCH" && exactMatch (strLit "/api/blog/comment") req.path then
    .postComment (f "blogId") (f "author") (f "text")
  else
    .createTour (f "author") (f "title") (f "description") (f "difficulty")
      (f "price") (f "tags") (f "keyPoints") (f "durations") (f "length")

/-- Dispatch after the JWT gate, following the registration order of
the source: the `/auth` proxy, then the three bridged handlers, then
the remaining proxies in order (checking `matchRoute` over the whole
table is equivalent, since no bridged path matches the `/auth` mount),
then the `/health` probe, and finally Express's default 404. -/
def dispatch (upstream : String → Str → ProxyResult)
    (rpc : RpcCall → RpcOutcome) (req : Request) : Outcome :=
  if mountMatches authRoute.mount req.path then
    proxyOutcome authRoute upstream req.path
  else if bridgedHit req.method req.path then
    .sent (bridgedRespond (rpc (bridgedCall req)))
  else
    match matchRoute req.path with
    | some r => proxyOutcome r upstream req.path
    | none =>
      if req.method == "GET" && exactMatch (strLit "/health") req.path then
        .sent ⟨200, .text "API Gateway is running 🚀"⟩
      else
        .sent ⟨404, .defaultNotFound⟩

/-- The whole per-request pipeline: the `verifyJWT` gate, then
dispatch. A `respond` from the gate short-circuits: nothing after it
runs. -/
def handleRequest (verify : Str → Option Claims)
    (upstream : String → Str → ProxyResult)
    (rpc : RpcCall → RpcOutcome) (req : Request) : Outcome :=
  match verifyJWT verify req with
  | .respond s m => .sent ⟨s, .jsonMessage m⟩
  | .proceed req2 => dispatch upstream rpc req2

/-- The environment variables checked at startup (source lines 46-53):
only the six proxied-service base URLs. -/
def requiredEnv : List String :=
  ["AUTH_SERVICE_URL", "STAKEHOLDERS_SERVICE_URL", "BLOG_SERVICE_URL",
   "TOUR_SERVICE_URL", "FOLLOWERS_SERVICE_URL", "PAYMENTS_SERVICE_URL"]

/-- JavaScript falsiness of `process.env[key]`: unset, or set to the
empty string. -/
def envFalsy : Option String → Bool
  | none => true
  | some s => s == ""

/-- `requiredEnv.filter((key) => !process.env[key])` (source line 55). -/
def missingVars (env : String → Option String) : List String :=
  requiredEnv.filter fun k => envFalsy (env k)

/-- Whether startup aborts: `missingVars.length > 0` triggers
`logger.fatal` and `process.exit(1)` (source lines 57-60). -/
def startupFatal (env : String → Option String) : Bool :=
  !(missingVars env).isEmpty

/-- The identifiers bound at module scope in the gateway source file:
its imports, its top-level constants, and ambient Node globals. The
identifier `target` is only ever introduced as a local constant inside
some routes' `onProxyRes` callbacks, never at module scope. -/
def moduleScope : List String :=
  ["express", "logger", "morganMiddleware", "rateLimit",
   "createProxyMiddleware", "cors", "dotenv", "path", "jwt", "grpc",
   "protoLoader", "app", "PORT", "requiredEnv", "missingVars",
   "verifyJWT", "PROTO_PATH", "packageDef", "grpcObj", "blogPackage",
   "blogClient", "TOUR_PROTO_PATH", "tourPackageDef", "tourGrpcObj",
   "tourPackage", "tourClient", "process", "console", "JSON"]

/-- Evaluate the free identifiers a callback body references, in
order: the first one absent from scope raises a ReferenceError. -/
def evalRefs (scope : List String) : List String → Except String Unit
  | [] => .ok ()
  | x :: xs =>
    if scope.contains x then evalRefs scope xs
    else .error ("ReferenceError: " ++ x ++ " is not defined")

/-- Scope inside the tour-execution route's `onProxyReq` callback
(source lines 345-347): module scope plus the callback parameters.
No local `target` is declared and none is in any enclosing scope. -/
def tourExecOnProxyReqScope : List String :=
  moduleScope ++ ["proxyReq", "req", "res"]

/-- Scope inside the tour-execution route's `onProxyRes` callback
(source lines 348-350). -/
def tourExecOnProxyResScope : List String :=
  moduleScope ++ ["proxyRes", "req", "res"]

/-- Free identifiers referenced by the tour-execution `onProxyReq`
body, in evaluation order of its template literal (source line 346). -/
def tourExecOnProxyReqRefs : List String :=
  ["logger", "req", "req", "target", "proxyReq"]

/-- Free identifiers referenced by the tour-execution `onProxyRes`
body (source line 349). -/
def tourExecOnProxyResRefs : List String :=
  ["logger", "req", "req", "target", "proxyRes"]

/-- Scope inside e.g. the auth route's `onProxyRes` (source lines
120-125): these callbacks declare `const target = ...` locally, so
`target` IS bound there. -/
def authOnProxyResScope : List String :=
  moduleScope ++ ["proxyRes", "req", "res", "target"]

/-- Invoking the tour-execution `onProxyReq` for a request: evaluates
its references in its scope. Unlike every other route's `onProxyReq`,
the body is not wrapped in try/catch, so an error propagates. -/
def runTourExecOnProxyReq (_req : Request) : Except String Unit :=
  evalRefs tourExecOnProxyReqScope tourExecOnProxyReqRefs

/-- Invoking the tour-execution `onProxyRes` for a request. -/
def runTourExecOnProxyRes (_req : Request) : Except String Unit :=
  evalRefs tourExecOnProxyResScope tourExecOnProxyResRefs

/-- Whether each route's `onProxyReq` body sits inside a
`try \x7b ... \x7d catch (_) \x7b \x7d`: true for every proxy route of
the source except the tour-execution route. -/
def onProxyReqInTry (r : RouteRule) : Bool :=
  !(r == tourExecutionRoute)

/-- The final fallback error-handling middleware (source lines
444-449): it writes the fixed 500 body only when no response headers
have been sent yet. -/
def globalErrorHandler (headersSent : Bool) : Option HttpResponse :=
  if !headersSent then some ⟨500, .jsonMessage "Gateway internal error"⟩
  else none

/-- Where an uncaught failure is raised. Express's error layer only
receives failures thrown synchronously inside a middleware body or
passed to `next(err)`; a failure thrown inside an asynchronous event
listener (http-proxy emits `proxyReq` from the outbound request's
socket listener and `proxyRes` from its response listener) never
enters the error layer and becomes an `uncaughtException` that
terminates the process. -/
inductive FailureSite
  | middlewareSync
  | asyncCallback
deriving DecidableEq

/-- A request's processing history: either some handler completed with
a terminal outcome, or a failure went uncaught at the given site with
the given headers-sent state. -/
inductive Processed
  | done (o : Outcome)
  | uncaught (site : FailureSite) (headersSent : Bool)

/-- The site at which the tour-execution callbacks' ReferenceErrors
are raised: http-proxy invokes `onProxyReq`/`onProxyRes` from
asynchronous event listeners, not synchronously in the middleware
body. -/
def tourExecCallbackSite : FailureSite := .asyncCallback

/-- What the client ultimately observes. Express applies the
last-registered error middleware — the global fallback — to failures
that reach its error layer, yielding the fixed 500 response or, when
headers were already sent, the already-streamed partial response. A
failure raised in an asynchronous event callback never reaches the
error layer: the process crashes and the request gets no terminal
outcome at all (`none`). -/
def finalize : Processed → Option Outcome
  | .done o => some o
  | .uncaught .middlewareSync hs =>
    match globalErrorHandler hs with
    | some r => some (.sent r)
    | none => some .streamClosed
  | .uncaught .asyncCallback _ => none

/-! ### Helper lemmas about the string model -/

theorem isPre_self_append (a rest : Str) : isPre a (a ++ rest) = true := by
  induction a with
  | nil => rfl
  | cons c cs ih => simp [isPre, ih]

theorem isPre_refl (a : Str) : isPre a a = true := by
  have h := isPre_self_append a []
  simpa using h

theorem isPre_append_of_le (a b rest : Str) (h : a.length ≤ b.length) :
    isPre a (b ++ rest) = isPre a b := by
  induction a generalizing b with
  | nil => rfl
  | cons c cs ih =>
    cases b with
    | nil => simp at h
    | cons d ds =>
      simp only [List.cons_append, isPre]
      simp only [List.length_cons, Nat.succ_le_succ_iff] at h
      rw [show ds.append rest = ds ++ rest from rfl, ih ds h]

theorem str_beq_false_of_length_ne (a b : Str) (h : a.length ≠ b.length) :
    (a == b) = false := by
  cases hq : a == b with
  | false => rfl
  | true => exact absurd (congrArg List.length (eq_of_beq hq)) h

theorem ne_of_isPre_false (a p : Str) (h : isPre a p = false) : (p == a) = false := by
  cases hq : p == a with
  | false => rfl
  | true =>
    rw [eq_of_beq hq, isPre_refl a] at h
    exact absurd h (by simp)

theorem isPre_append_false (a b p : Str) (h : isPre a p = false) :
    isPre (a ++ b) p = false := by
  induction a generalizing p with
  | nil => simp [isPre] at h
  | cons c cs ih =>
    cases p with
    | nil => rfl
    | cons d ds =>
      simp only [isPre, Bool.and_eq_false_iff] at h
      simp only [List.cons_append, isPre, Bool.and_eq_false_iff]
      rcases h with h | h
      · exact Or.inl h
      · exact Or.inr (ih ds h)

theorem mountMatches_false_of_isPre_false (m p : Str) (h : isPre m p = false) :
    mountMatches m p = false := by
  rw [mountMatches, ne_of_isPre_false m p h,
    isPre_append_false m ['/'] p h]
  rfl

theorem stripMount_cons (m : Str) (c : Char) (cs : Str) :
    stripMount m (m ++ c :: cs) = c :: cs := by
  rw [stripMount]
  simp

theorem mountMatches_concat_false (m b : Str) (c : Char) (cs : Str)
    (hlen : m.length + 1 ≤ b.length) (hpre : isPre (m ++ ['/']) b = false) :
    mountMatches m (b ++ c :: cs) = false := by
  rw [mountMatches]
  have h1 : ((b ++ c :: cs) == m) = false := by
    apply str_beq_false_of_length_ne
    simp only [List.length_append, List.length_cons]
    omega
  have h2 : isPre (m ++ ['/']) (b ++ c :: cs) = false := by
    rw [isPre_append_of_le (m ++ ['/']) b (c :: cs) (by simp; omega), hpre]
  rw [h1, h2]
  rfl

theorem mountMatches_self_slash (m : Str) (cs : Str) :
    mountMatches m (m ++ '/' :: cs) = true := by
  rw [mountMatches]
  rw [show m ++ '/' :: cs = (m ++ ['/']) ++ cs by simp]
  rw [isPre_self_append]
  simp

/-! ### Claim theorems -/

/-- C1: every request whose path lies under the `/api/tour-execution`
mount is matched to the tour-execution rule — which forwards to the
tour service with the path re-prefixed `/api/tour-execution` — and
never to the distinct plain `/api/tour` rule, despite the `/api/tour`
middleware being registered first: Express mount matching requires a
`/` (or end of path) after the mount, and the character after
`/api/tour` in such paths is `-`. -/
theorem tourExecutionNotShadowed (rest : Str)
    (h : rest = [] ∨ isPre ['/'] rest = true) :
    matchRoute (strLit "/api/tour-execution" ++ rest) = some tourExecutionRoute
    ∧ tourExecutionRoute.targetEnv = "TOUR_SERVICE_URL"
    ∧ decide (tourExecutionRoute = tourRoute) = false
    ∧ forwardedPath tourExecutionRoute
        (strLit "/api/tour-execution" ++ '/' :: rest)
      = strLit "/api/tour-execution" ++ '/' :: rest := by
  refine ⟨?_, rfl, by decide, ?_⟩
  · rcases h with h | h
    · subst h
      rw [List.append_nil]
      decide
    · cases rest with
      | nil => simp [isPre] at h
      | cons c cs =>
        have hc : c = '/' := by
          simp [isPre] at h
          exact h.symm
        subst hc
        have h1 := mountMatches_concat_false (strLit "/auth")
          (strLit "/api/tour-execution") '/' cs (by decide) (by decide)
        have h2 := mountMatches_concat_false (strLit "/stakeholders")
          (strLit "/api/tour-execution") '/' cs (by decide) (by decide)
        have h3 := mountMatches_concat_false (strLit "/api/blog")
          (strLit "/api/tour-execution") '/' cs (by decide) (by decide)
        have h4 := mountMatches_concat_false (strLit "/api/tour")
          (strLit "/api/tour-execution") '/' cs (by decide) (by decide)
        have h5 := mountMatches_self_slash (strLit "/api/tour-execution") cs
        simp only [matchRoute, routeTable]
        rw [List.find?_cons_of_neg _ (by simp [authRoute, h1]),
          List.find?_cons_of_neg _ (by simp [stakeholdersRoute, h2]),
          List.find?_cons_of_neg _ (by simp [blogRoute, h3]),
          List.find?_cons_of_neg _ (by simp [tourRoute, h4]),
          List.find?_cons_of_pos _ (by simp [tourExecutionRoute, h5])]
  · rw [forwardedPath,
      show tourExecutionRoute.mount = strLit "/api/tour-execution" from rfl,
      stripMount_cons]
    rfl

/-- Witness for C1 at the concrete path `/api/tour-execution/7`. -/
theorem tourExecutionNotShadowedWitness :
    matchRoute (strLit "/api/tour-execution" ++ strLit "/7")
      = some tourExecutionRoute :=
  (tourExecutionNotShadowed (strLit "/7") (Or.inr (by decide))).1

/-- C2: for requests outside the `/auth` bypass: a missing or
non-`Bearer` Authorization header is answered 401 with a JSON message
and nothing is dispatched; a token failing verification is answered
403; a verifying token attaches the decoded claims as `req.user` and
dispatch continues. Requests whose path starts with `/auth` skip the
verifier entirely and proceed to dispatch regardless of credentials. -/
theorem authGateCharacterization (verify : Str → Option Claims)
    (upstream : String → Str → ProxyResult) (rpc : RpcCall → RpcOutcome)
    (req : Request) :
    (isPre (strLit "/auth") req.path = true →
      verifyJWT verify req = .proceed req
      ∧ handleRequest verify upstream rpc req = dispatch upstream rpc req)
    ∧ (isPre (strLit "/auth") req.path = false → req.authorization = none →
      handleRequest verify upstream rpc req
        = .sent ⟨401, .jsonMessage "No token provided"⟩)
    ∧ (∀ h, isPre (strLit "/auth") req.path = false →
      req.authorization = some h → isPre (strLit "Bearer ") h = false →
      handleRequest verify upstream rpc req
        = .sent ⟨401, .jsonMessage "No token provided"⟩)
    ∧ (∀ h, isPre (strLit "/auth") req.path = false →
      req.authorization = some h → isPre (strLit "Bearer ") h = true →
      verify (tokenOf h) = none →
      handleRequest verify upstream rpc req
        = .sent ⟨403, .jsonMessage "Invalid or expired token"⟩)
    ∧ (∀ h c, isPre (strLit "/auth") req.path = false →
      req.authorization = some h → isPre (strLit "Bearer ") h = true →
      verify (tokenOf h) = some c →
      verifyJWT verify req = .proceed { req with user := some c }
      ∧ handleRequest verify upstream rpc req
          = dispatch upstream rpc { req with user := some c }) := by
  refine ⟨fun hp => ?_, fun hp ha => ?_, fun h hp ha hb => ?_,
    fun h hp ha hb hv => ?_, fun h c hp ha hb hv => ?_⟩
  · have hj : verifyJWT verify req = .proceed req := by
      rw [verifyJWT, hp]
      rfl
    exact ⟨hj, by rw [handleRequest, hj]⟩
  · rw [handleRequest, verifyJWT, hp, ha]
    rfl
  · rw [handleRequest, verifyJWT, hp, ha]
    simp [hb]
  · rw [handleRequest, verifyJWT, hp, ha]
    simp [hb, hv]
  · have hj : verifyJWT verify req = .proceed { req with user := some c } := by
      rw [verifyJWT, hp, ha]
      simp [hb, hv]
    exact ⟨hj, by rw [handleRequest, hj]⟩

/-- Witness for C2: a request to `/api/blog` with no Authorization
header is answered 401. -/
theorem authGateCharacterizationWitness :
    handleRequest (fun _ => some []) (fun _ _ => .responded 200)
      (fun _ => .ok [])
      { method := "POST", path := strLit "/api/blog",
        authorization := none, body := [], user := none }
      = .sent ⟨401, .jsonMessage "No token provided"⟩ :=
  (authGateCharacterization (fun _ => some []) (fun _ _ => .responded 200)
    (fun _ => .ok [])
    { method := "POST", path := strLit "/api/blog",
      authorization := none, body := [], user := none }).2.1
    (by decide) rfl

/-- A verification oracle accepting every token. -/
def verifyAny : Str → Option Claims := fun _ => some []

/-- An upstream oracle where every service responds 200. -/
def upstreamAlive : String → Str → ProxyResult := fun _ _ => .responded 200

/-- An upstream oracle where every connection is refused before any
response headers are sent. -/
def upstreamDown : String → Str → ProxyResult :=
  fun _ _ => .failed "connect ECONNREFUSED" false

/-- An RPC oracle whose every call succeeds with a one-field reply. -/
def rpcEcho : RpcCall → RpcOutcome := fun _ => .ok [("id", "1")]

/-- The status code a request's outcome carried (0 when the stream was
cut without a synthesized response). -/
def statusOf : Outcome → Nat
  | .sent r => r.status
  | .streamClosed => 0

/-- C3 counterexample: a `GET /health` request carrying no credential
is answered 401 by the JWT gate — not 200 — because `verifyJWT` is
registered before the `/health` handler and only bypasses paths
starting with `/auth`. The oracles are irrelevant: the gate
short-circuits. -/
theorem healthWithoutCredential401 :
    handleRequest verifyAny upstreamAlive rpcEcho
      { method := "GET", path := strLit "/health",
        authorization := none, body := [], user := none }
      = .sent ⟨401, .jsonMessage "No token provided"⟩
    ∧ (statusOf (handleRequest verifyAny upstreamAlive rpcEcho
        { method := "GET", path := strLit "/health",
          authorization := none, body := [], user := none }) == 200)
      = false := by
  constructor
  · decide
  · decide

/-- C3 amended: `GET /health` returns 200 regardless of the route
table and upstream availability for every request whose bearer
credential verifies; without a valid credential the JWT gate answers
first (401/403), as the counterexample shows. -/
theorem healthOkWhenAuthenticated (verify : Str → Option Claims)
    (upstream : String → Str → ProxyResult) (rpc : RpcCall → RpcOutcome)
    (req : Request) (h : Str) (c : Claims)
    (hm : req.method = "GET") (hp : req.path = strLit "/health")
    (ha : req.authorization = some h)
    (hb : isPre (strLit "Bearer ") h = true)
    (hv : verify (tokenOf h) = some c) :
    handleRequest verify upstream rpc req
      = .sent ⟨200, .text "API Gateway is running 🚀"⟩ := by
  obtain ⟨m, p, a, b, u⟩ := req
  simp only at hm hp ha
  subst hm hp ha
  have h1 : isPre (strLit "/auth") (strLit "/health") = false := by decide
  have h2 : mountMatches authRoute.mount (strLit "/health") = false := by
    decide
  have h3 : bridgedHit "GET" (strLit "/health") = false := by decide
  have h4 : matchRoute (strLit "/health") = none := by decide
  have h5 : ("GET" == "GET" && exactMatch (strLit "/health")
      (strLit "/health")) = true := by decide
  rw [handleRequest, verifyJWT]
  simp only [h1, Bool.false_eq_true, if_false, hb, if_true, hv]
  rw [dispatch]
  simp only [h2, h3, h4, h5, Bool.false_eq_true, if_false, if_true]

/-- Witness for the amended C3 at a concrete authenticated request. -/
theorem healthOkWhenAuthenticatedWitness :
    handleRequest verifyAny upstreamDown rpcEcho
      { method := "GET", path := strLit "/health",
        authorization := some (strLit "Bearer t"), body := [],
        user := none }
      = .sent ⟨200, .text "API Gateway is running 🚀"⟩ :=
  healthOkWhenAuthenticated verifyAny upstreamDown rpcEcho
    { method := "GET", path := strLit "/health",
      authorization := some (strLit "Bearer t"), body := [], user := none }
    (strLit "Bearer t") [] rfl rfl rfl (by decide) rfl

theorem bridgedHit_not_auth (method : String) (p : Str)
    (hb : bridgedHit method p = true) :
    isPre (strLit "/auth") p = false := by
  simp only [bridgedHit, exactMatch, Bool.or_eq_true, Bool.and_eq_true,
    beq_iff_eq] at hb
  rcases hb with (⟨hm, hp⟩ | ⟨hm, hp⟩) | ⟨hm, hp⟩ <;>
    rcases hp with hp | hp <;> subst hp <;> decide

theorem handleRequest_bridged (verify : Str → Option Claims)
    (upstream : String → Str → ProxyResult) (rpc : RpcCall → RpcOutcome)
    (req : Request) (h : Str) (c : Claims)
    (ha : req.authorization = some h)
    (hb : isPre (strLit "Bearer ") h = true)
    (hv : verify (tokenOf h) = some c)
    (hhit : bridgedHit req.method req.path = true) :
    handleRequest verify upstream rpc req
      = .sent (bridgedRespond (rpc (bridgedCall req))) := by
  obtain ⟨m, p, a, b, u⟩ := req
  simp only at ha hhit
  subst ha
  have hna : isPre (strLit "/auth") p = false := bridgedHit_not_auth m p hhit
  have hmm : mountMatches authRoute.mount p = false :=
    mountMatches_false_of_isPre_false _ _ hna
  rw [handleRequest, verifyJWT]
  simp only [hna, Bool.false_eq_true, if_false, hb, if_true, hv]
  rw [dispatch]
  simp only [hmm, Bool.false_eq_true, if_false, hhit, if_true]
  rfl

/-- C4: each bridged endpoint (POST /api/blog, PATCH /api/blog/comment,
POST /api/tour), reached with a verifying credential, always answers
with exactly the mapping of its single RPC call's outcome — so the
connection cannot hang — namely: success is 201 mirroring the RPC
response fields; an RPC error with status NOT_FOUND is 404 carrying the
error's message; any other RPC error (including an unreachable backend
surfacing as UNAVAILABLE) is 500 carrying the error's message. -/
theorem bridgedResponseMapping (verify : Str → Option Claims)
    (upstream : String → Str → ProxyResult) (rpc : RpcCall → RpcOutcome)
    (req : Request) (h : Str) (c : Claims)
    (ha : req.authorization = some h)
    (hb : isPre (strLit "Bearer ") h = true)
    (hv : verify (tokenOf h) = some c)
    (hhit : bridgedHit req.method req.path = true) :
    handleRequest verify upstream rpc req
      = .sent (bridgedRespond (rpc (bridgedCall req)))
    ∧ (∀ r, rpc (bridgedCall req) = .ok r →
      handleRequest verify upstream rpc req = .sent ⟨201, .jsonRpc r⟩)
    ∧ (∀ msg, rpc (bridgedCall req) = .rpcError grpcNotFound msg →
      handleRequest verify upstream rpc req = .sent ⟨404, .jsonMessage msg⟩)
    ∧ (∀ code msg, rpc (bridgedCall req) = .rpcError code msg →
      (code == grpcNotFound) = false →
      handleRequest verify upstream rpc req
        = .sent ⟨500, .jsonMessage msg⟩) := by
  have key := handleRequest_bridged verify upstream rpc req h c ha hb hv hhit
  refine ⟨key, fun r hr => ?_, fun msg hmsg => ?_,
    fun code msg hmsg hcode => ?_⟩
  · rw [key, hr]
    rfl
  · rw [key, hmsg, bridgedRespond]
    simp
  · rw [key, hmsg, bridgedRespond]
    simp [hcode]

/-- Witness for C4: a successful RPC call behind POST /api/blog yields
201 echoing the RPC reply. -/
theorem bridgedResponseMappingWitness :
    handleRequest verifyAny upstreamAlive rpcEcho
      { method := "POST", path := strLit "/api/blog",
        authorization := some (strLit "Bearer t"),
        body := [("author", "a"), ("title", "t")], user := none }
      = .sent ⟨201, .jsonRpc [("id", "1")]⟩ :=
  (bridgedResponseMapping verifyAny upstreamAlive rpcEcho
    { method := "POST", path := strLit "/api/blog",
      authorization := some (strLit "Bearer t"),
      body := [("author", "a"), ("title", "t")], user := none }
    (strLit "Bearer t") [] rfl (by decide) rfl (by decide)).2.1
    [("id", "1")] rfl

/-- C9: every bridged endpoint sits behind the JWT gate: a request to
one of the three bridged endpoints without a valid bearer credential is
answered 401 or 403, and the RPC client is never invoked — the outcome
does not depend on the RPC oracle at all. -/
theorem bridgedBehindAuthGate (verify : Str → Option Claims)
    (upstream : String → Str → ProxyResult)
    (rpc rpc2 : RpcCall → RpcOutcome) (req : Request)
    (hhit : bridgedHit req.method req.path = true)
    (hbad : req.authorization = none
      ∨ ∃ h, req.authorization = some h
        ∧ (isPre (strLit "Bearer ") h = false ∨ verify (tokenOf h) = none)) :
    (handleRequest verify upstream rpc req
        = .sent ⟨401, .jsonMessage "No token provided"⟩
      ∨ handleRequest verify upstream rpc req
        = .sent ⟨403, .jsonMessage "Invalid or expired token"⟩)
    ∧ handleRequest verify upstream rpc req
      = handleRequest verify upstream rpc2 req := by
  have hna : isPre (strLit "/auth") req.path = false :=
    bridgedHit_not_auth _ _ hhit
  have hjw : verifyJWT verify req = .respond 401 "No token provided"
      ∨ verifyJWT verify req = .respond 403 "Invalid or expired token" := by
    rw [verifyJWT]
    simp only [hna, Bool.false_eq_true, if_false]
    rcases hbad with ha | ⟨h, ha, hcase⟩
    · rw [ha]
      exact Or.inl rfl
    · rw [ha]
      rcases hcase with hc | hc
      · simp [hc]
      · cases hbear : isPre (strLit "Bearer ") h with
        | false => simp [hbear]
        | true => simp [hbear, hc]
  rcases hjw with hj | hj
  · exact ⟨Or.inl (by rw [handleRequest, hj]),
      by rw [handleRequest, hj, handleRequest, hj]⟩
  · exact ⟨Or.inr (by rw [handleRequest, hj]),
      by rw [handleRequest, hj, handleRequest, hj]⟩

/-- Witness for C9: POST /api/tour with no Authorization header is
rejected before any RPC activity. -/
theorem bridgedBehindAuthGateWitness :
    handleRequest verifyAny upstreamAlive rpcEcho
      { method := "POST", path := strLit "/api/tour",
        authorization := none, body := [], user := none }
      = .sent ⟨401, .jsonMessage "No token provided"⟩
    ∨ handleRequest verifyAny upstreamAlive rpcEcho
      { method := "POST", path := strLit "/api/tour",
        authorization := none, body := [], user := none }
      = .sent ⟨403, .jsonMessage "Invalid or expired token"⟩ :=
  (bridgedBehindAuthGate verifyAny upstreamAlive rpcEcho rpcEcho
    { method := "POST", path := strLit "/api/tour",
      authorization := none, body := [], user := none }
    (by decide) (Or.inl rfl)).1

/-- C5 counterexample: the claimed followers-prefix stripping is not
what happens for every path: the configured rewrite is applied to the
already mount-stripped path, so for `/api/followers/api/followers/z`
(i.e. x = `api/followers/z`) the upstream receives `/z` — the literal
is removed a second time — not `/x` = `/api/followers/z`. -/
theorem followersDoubledRewrite :
    (forwardedPath followersRoute
        (strLit "/api/followers/api/followers/z")
      == strLit "/api/followers/z") = false
    ∧ forwardedPath followersRoute
        (strLit "/api/followers/api/followers/z")
      = strLit "/z" := by
  exact ⟨by decide, by decide⟩

/-- C5 amended: for every matched proxied request the forwarded path
is the rewrite of the mount-stripped path per the matched rule: any
sub-path under `/auth` reaches the upstream as the original
`/auth`-prefixed path; `/api/followers/x` reaches the upstream as `/x`
provided `x` does not itself start with `/api/followers` (in that case
the configured rewrite strips the literal once more from the
already-stripped path); a `/stakeholders` sub-path is forwarded
mount-stripped, unchanged. -/
theorem forwardedPathPerRule (rest : Str) :
    forwardedPath authRoute (strLit "/auth" ++ '/' :: rest)
      = strLit "/auth" ++ '/' :: rest
    ∧ (isPre (strLit "/api/followers") ('/' :: rest) = false →
      forwardedPath followersRoute (strLit "/api/followers" ++ '/' :: rest)
        = '/' :: rest)
    ∧ forwardedPath stakeholdersRoute (strLit "/stakeholders" ++ '/' :: rest)
      = '/' :: rest := by
  refine ⟨?_, fun hno => ?_, ?_⟩
  · rw [forwardedPath, show authRoute.mount = strLit "/auth" from rfl,
      stripMount_cons]
    rfl
  · rw [forwardedPath,
      show followersRoute.mount = strLit "/api/followers" from rfl,
      stripMount_cons]
    show applyRewrite (.stripRule (strLit "/api/followers")) ('/' :: rest)
      = '/' :: rest
    rw [applyRewrite]
    simp [hno]
  · rw [forwardedPath,
      show stakeholdersRoute.mount = strLit "/stakeholders" from rfl,
      stripMount_cons]
    rfl

/-- Witness for the amended C5 at the path `/api/followers/x`. -/
theorem forwardedPathPerRuleWitness :
    forwardedPath followersRoute (strLit "/api/followers" ++ '/' :: strLit "x")
      = '/' :: strLit "x" :=
  (forwardedPathPerRule (strLit "x")).2.1 (by decide)

/-- C6 (documenting a source slip): when the upstream of a matched
proxied route fails before any response headers are sent, the gateway
answers 502 with a JSON body built from that route's `onError`
message and the underlying error. But the `/api/carts` route — whose
target is the payments service — carries the copy-pasted message
naming the followers service, so its 502 body does not name the
payments service as the claim states. Evaluated at a failing
`/api/carts` request. -/
theorem cartsOnErrorNamesWrongService :
    handleRequest verifyAny upstreamDown rpcEcho
      { method := "GET", path := strLit "/api/carts/1",
        authorization := some (strLit "Bearer t"), body := [],
        user := none }
      = .sent ⟨502, .jsonMessageError
          "Gateway failed to reach followers service" "connect ECONNREFUSED"⟩
    ∧ cartsRoute.targetEnv = "PAYMENTS_SERVICE_URL"
    ∧ (cartsRoute.errMessage
        == "Gateway failed to reach payments service") = false := by
  exact ⟨by decide, rfl, by decide⟩

/-- C7 counterexample: an uncaught failure that never reaches the
final fallback handler. A request through the tour-execution route
raises `ReferenceError: target is not defined` in its un-try-wrapped
`onProxyReq`, which http-proxy invokes from an asynchronous event
listener; even with no response headers sent, finalization yields no
terminal response at all — the fallback 500 is never emitted and the
process crashes — refuting "any uncaught failure at any stage reaches
the final fallback handler" and "every request receives exactly one
terminal response". -/
theorem asyncFailureSkipsFallback :
    runTourExecOnProxyReq
      { method := "GET", path := strLit "/api/tour-execution/7",
        authorization := some (strLit "Bearer t"), body := [],
        user := none }
      = .error "ReferenceError: target is not defined"
    ∧ onProxyReqInTry tourExecutionRoute = false
    ∧ tourExecCallbackSite = .asyncCallback
    ∧ finalize (.uncaught tourExecCallbackSite false) = none
    ∧ (finalize (.uncaught tourExecCallbackSite false)).isSome = false := by
  exact ⟨rfl, by decide, rfl, rfl, rfl⟩

/-- C7 amended: only failures that reach Express's error layer —
raised synchronously in a middleware body or passed to `next(err)` —
are caught by the final fallback handler, which emits the fixed 500
"Gateway internal error" response exactly when no response headers had
been sent (when they had, it writes nothing and the partial stream
ends); such requests receive exactly one terminal outcome. A failure
thrown inside an asynchronous event callback — in particular the
tour-execution route's un-try-wrapped `onProxyReq`/`onProxyRes`
ReferenceErrors — bypasses the error layer entirely: the process
crashes and that request receives no terminal response. -/
theorem fallbackErrorHandlerScope :
    globalErrorHandler false
      = some ⟨500, .jsonMessage "Gateway internal error"⟩
    ∧ globalErrorHandler true = none
    ∧ finalize (.uncaught .middlewareSync false)
      = some (.sent ⟨500, .jsonMessage "Gateway internal error"⟩)
    ∧ finalize (.uncaught .middlewareSync true) = some .streamClosed
    ∧ (∀ hs : Bool, finalize (.uncaught .asyncCallback hs) = none)
    ∧ (∀ o : Outcome, finalize (.done o) = some o) := by
  exact ⟨rfl, rfl, rfl, rfl, fun hs => rfl, fun o => rfl⟩

theorem filter_not_isEmpty_eq_any (l : List String) (p2 : String → Bool) :
    (!(l.filter p2).isEmpty) = l.any p2 := by
  induction l with
  | nil => rfl
  | cons a as ih =>
    cases hpa : p2 a <;> simp [List.filter_cons, hpa, ← ih]

/-- An environment with all six checked service URLs set and nothing
else — in particular no `JWT_SECRET` and no gRPC host addresses. -/
def envNoSecret : String → Option String :=
  fun k => if requiredEnv.contains k then some "http://svc:1" else none

/-- C8 counterexample: with every checked variable present but the
Token Verifier's signing secret missing, startup does NOT abort — the
gateway serves — and the missing secret surfaces at request time: a
well-formed bearer request to a protected route gets a runtime 403,
because `jwt.verify` with an undefined secret always throws. -/
theorem missingSecretNotFatal :
    envNoSecret "JWT_SECRET" = none
    ∧ startupFatal envNoSecret = false
    ∧ handleRequest (mkVerify none (fun _ _ => some [])) upstreamAlive
        rpcEcho
        { method := "GET", path := strLit "/api/tour/1",
          authorization := some (strLit "Bearer goodtoken"), body := [],
          user := none }
      = .sent ⟨403, .jsonMessage "Invalid or expired token"⟩ := by
  exact ⟨rfl, by decide, by decide⟩

/-- C8 amended: startup aborts exactly when one of the six proxied
services' base-URL variables is unset or empty; the RPC hosts and the
JWT signing secret are not part of that check, and a missing signing
secret surfaces at request time as 403 on every gated route. -/
theorem startupEnvCheck (env : String → Option String)
    (check : String → Str → Option Claims) :
    startupFatal env = requiredEnv.any (fun k => envFalsy (env k))
    ∧ (requiredEnv.contains "JWT_SECRET") = false
    ∧ (requiredEnv.contains "BLOG_SERVICE_GRPC_HOST") = false
    ∧ (requiredEnv.contains "TOUR_SERVICE_GRPC_HOST") = false
    ∧ (∀ req h, isPre (strLit "/auth") req.path = false →
      req.authorization = some h → isPre (strLit "Bearer ") h = true →
      verifyJWT (mkVerify none check) req
        = .respond 403 "Invalid or expired token") := by
  refine ⟨?_, by decide, by decide, by decide, fun req h hna ha hb => ?_⟩
  · rw [startupFatal, missingVars, filter_not_isEmpty_eq_any]
  · rw [verifyJWT, ha]
    simp only [hna, Bool.false_eq_true, if_false, hb, if_true]
    rfl

/-- Witness for the amended C8: the runtime-403 clause at a concrete
request (and a concrete environment for the other clauses). -/
theorem startupEnvCheckWitness :
    verifyJWT (mkVerify none (fun _ _ => some []))
      { method := "GET", path := strLit "/api/tour/1",
        authorization := some (strLit "Bearer goodtoken"), body := [],
        user := none }
      = .respond 403 "Invalid or expired token" :=
  (startupEnvCheck envNoSecret (fun _ _ => some [])).2.2.2.2
    { method := "GET", path := strLit "/api/tour/1",
      authorization := some (strLit "Bearer goodtoken"), body := [],
      user := none }
    (strLit "Bearer goodtoken") (by decide) rfl (by decide)

/-- C10: the tour-execution route's `onProxyReq` and `onProxyRes`
reference the identifier `target`, which is bound in no enclosing
scope there (unlike the other routes, whose `onProxyRes` declares a
local `const target` and whose `onProxyReq` bodies sit inside
try/catch); therefore both callbacks raise a ReferenceError on every
invocation, and the tour-execution `onProxyReq` alone is not wrapped
in a try/catch. -/
theorem tourExecutionCallbacksRaise :
    (tourExecOnProxyReqScope.contains "target") = false
    ∧ (tourExecOnProxyResScope.contains "target") = false
    ∧ (∀ req : Request, runTourExecOnProxyReq req
        = .error "ReferenceError: target is not defined")
    ∧ (∀ req : Request, runTourExecOnProxyRes req
        = .error "ReferenceError: target is not defined")
    ∧ (routeTable.all fun r =>
        onProxyReqInTry r == !(r == tourExecutionRoute)) = true
    ∧ (authOnProxyResScope.contains "target") = true
    ∧ evalRefs authOnProxyResScope tourExecOnProxyResRefs = .ok () := by
  exact ⟨by decide, by decide, fun req => rfl, fun req => rfl,
    by decide, by decide, rfl⟩

end Gateway
